import Mathlib

/-!
Verification development for the claude-web-tunnel routing core.

This file gives a shallow embedding of the server's routing and session
state (crates/server/src/state.rs, ws_user.rs, ws_agent.rs, auth.rs) and of
the agent's PTY output-buffering logic (crates/agent/src/pty.rs), together
with theorems settling the behavioural claims about them.

Modelling conventions:
* 128-bit uuids are abstract identifiers, modelled as `Nat`.
* Rust `HashMap`s are modelled as association lists with unique keys;
  `alistInsert` replaces an existing binding as `HashMap::insert` does.
* The per-peer mpsc channels are not stored in the state; a message placed
  on a channel is modelled as an `Effect` value returned by the operation.
* SHA-256 (`hash_token` in auth.rs, implemented by the external `sha2`
  crate) is abstracted as an arbitrary function `String → String` passed to
  the operations that hash.
* The persistence repository and the terminal-history store are external
  interfaces; they are passed in as functions where an operation consults
  them.  Audit logging and tracing are side effects outside the model.
* Byte buffers are `List Nat`.
-/

abbrev Uuid := Nat

abbrev Byte := Nat

/-- Association-list lookup, the model of `HashMap::get`. -/
def alistLookup {β : Type} (k : Uuid) : List (Uuid × β) → Option β
  | [] => none
  | (k2, v) :: rest => if k = k2 then some v else alistLookup k rest

/-- Association-list insert-or-replace, the model of `HashMap::insert`. -/
def alistInsert {β : Type} (k : Uuid) (v : β) : List (Uuid × β) → List (Uuid × β)
  | [] => [(k, v)]
  | (k2, v2) :: rest =>
    if k = k2 then (k, v) :: rest else (k2, v2) :: alistInsert k v rest

/-- Association-list removal, the model of `HashMap::remove`. -/
def alistRemove {β : Type} (k : Uuid) : List (Uuid × β) → List (Uuid × β)
  | [] => []
  | (k2, v2) :: rest =>
    if k = k2 then rest else (k2, v2) :: alistRemove k rest

/-- In-place update of one binding, the model of `HashMap::get_mut`. -/
def alistUpdate {β : Type} (k : Uuid) (f : β → β) : List (Uuid × β) → List (Uuid × β)
  | [] => []
  | (k2, v2) :: rest =>
    if k = k2 then (k2, f v2) :: rest else (k2, v2) :: alistUpdate k f rest

/-- `Role` from common/src/types.rs. -/
inductive Role where
  | superAdmin
  | admin
  | user
deriving DecidableEq, Repr

/-- `Role::can_create_instance` from common/src/types.rs. -/
def Role.can_create_instance : Role → Bool
  | .superAdmin => true
  | .admin => true
  | .user => false

/-- `Role::can_close_instance` from common/src/types.rs. -/
def Role.can_close_instance : Role → Bool
  | .superAdmin => true
  | .admin => true
  | .user => false

/-- `Role::can_manage_all_agents` from common/src/types.rs. -/
def Role.can_manage_all_agents : Role → Bool
  | .superAdmin => true
  | _ => false

/-- `AgentStatus` from common/src/types.rs. -/
inductive AgentStatus where
  | online
  | offline
deriving DecidableEq, Repr

/-- `InstanceStatus` from common/src/types.rs. -/
inductive InstanceStatus where
  | running
  | suspended
  | stopped
deriving DecidableEq, Repr

/-- `Instance` from common/src/types.rs (timestamps are abstract `Nat`s). -/
structure Instance where
  id : Uuid
  agent_id : Uuid
  cwd : String
  status : InstanceStatus
  created_at : Nat
  attached_users : Nat
deriving DecidableEq, Repr

/-- `ExistingInstance` from common/src/protocol.rs. -/
structure ExistingInstance where
  id : Uuid
  cwd : String
deriving DecidableEq, Repr

/-- `ConnectedAgent` from server/src/state.rs.  The `tx` channel is not
stored (sends are modelled as effects); the inner `Agent` value is flattened
into the fields the claims touch. -/
structure ConnectedAgent where
  name : String
  status : AgentStatus
  connected_at : Option Nat
  admin_token_hash : String
  share_token_hash : String
  instances : List (Uuid × Instance)
deriving DecidableEq, Repr

/-- `UserSession` from server/src/state.rs.  The field `working_agent_id` is
Modelled from the spec: it backs the SuperAdmin working-agent override of
§3/§4.6, whose `set_working_agent` / `get_effective_agent_id` methods are
called from ws_user.rs but are not among the provided sources. -/
structure UserSession where
  id : Uuid
  role : Role
  agent_id : Option Uuid
  working_agent_id : Option Uuid
  attached_instances : List Uuid
deriving DecidableEq, Repr

/-- The registries of `AppState` from server/src/state.rs. -/
structure AppState where
  agents : List (Uuid × ConnectedAgent)
  users : List (Uuid × UserSession)
deriving DecidableEq, Repr

/-- `ServerToAgentMessage` from common/src/protocol.rs. -/
inductive ServerToAgentMessage where
  | registered (message : String)
  | createInstance (instance_id : Uuid) (cwd : String)
  | closeInstance (instance_id : Uuid)
  | ptyInput (instance_id : Uuid) (data : String)
  | resize (instance_id : Uuid) (cols rows : Nat)
  | ping
  | error (message : String)
deriving DecidableEq, Repr

/-- `ServerToUserMessage` from common/src/protocol.rs (the variants the
modelled handlers emit). -/
inductive ServerToUserMessage where
  | instanceList (instances : List Instance)
  | instanceCreated (inst : Instance)
  | instanceClosed (instance_id : Uuid)
  | ptyOutput (instance_id : Uuid) (data : String)
  | userJoined (instance_id : Uuid) (user_count : Nat)
  | userLeft (instance_id : Uuid) (user_count : Nat)
  | agentStatusChanged (agent_id : Uuid) (online : Bool)
  | pong
  | error (message : String)
deriving DecidableEq, Repr

/-- `AgentMessage` from common/src/protocol.rs. -/
inductive AgentMessage where
  | register (agent_id : Uuid) (name admin_token share_token : String)
      (existing_instances : List ExistingInstance)
  | instanceCreated (instance_id : Uuid) (cwd : String)
  | instanceClosed (instance_id : Uuid)
  | ptyOutput (instance_id : Uuid) (data : String)
  | heartbeat
  | error (message : String)
deriving DecidableEq, Repr

/-- `UserMessage` from common/src/protocol.rs (the non-admin variants the
modelled handler dispatches on). -/
inductive UserMessage where
  | auth (token : String)
  | createInstance (cwd : String)
  | closeInstance (instance_id : Uuid)
  | attach (instance_id : Uuid)
  | detach (instance_id : Uuid)
  | ptyInput (instance_id : Uuid) (data : String)
  | resize (instance_id : Uuid) (cols rows : Nat)
  | listInstances
  | heartbeat
deriving DecidableEq, Repr

/-- A message placed on one of the per-peer channels, or on the agent-status
broadcast channel. -/
inductive Effect where
  | toAgent (agent_id : Uuid) (msg : ServerToAgentMessage)
  | toUser (session_id : Uuid) (msg : ServerToUserMessage)
  | statusBroadcast (agent_id : Uuid) (online : Bool)
deriving DecidableEq, Repr

/-! ## Server state operations (server/src/state.rs) -/

/-- `AppState::register_agent` (state.rs:82).  Hashes the tokens, overwrites
any prior entry with the same id with a fresh `ConnectedAgent` whose
instance map is empty, and broadcasts `(id, true)` on the status channel.
The detached database upsert is an external side effect outside the model.
`hash` abstracts `hash_token` (auth.rs, SHA-256 via the `sha2` crate). -/
def register_agent (hash : String → String) (st : AppState) (agent_id : Uuid)
    (name admin_token share_token : String) (now : Nat) : AppState × List Effect :=
  let connected : ConnectedAgent :=
    { name := name
      status := .online
      connected_at := some now
      admin_token_hash := hash admin_token
      share_token_hash := hash share_token
      instances := [] }
  ({ st with agents := alistInsert agent_id connected st.agents },
   [Effect.statusBroadcast agent_id true])

/-- `AppState::unregister_agent` (state.rs:127): removes the entry (together
with its instance map) and broadcasts `(id, false)`. -/
def unregister_agent (st : AppState) (agent_id : Uuid) : AppState × List Effect :=
  ({ st with agents := alistRemove agent_id st.agents },
   [Effect.statusBroadcast agent_id false])

/-- The in-memory fast path of `AppState::authenticate` (state.rs:147-156):
compare the token hash against each connected agent's `admin_token_hash`,
then its `share_token_hash`. -/
def lookupConnectedByHash (h : String) : List (Uuid × ConnectedAgent) → Option (Role × Uuid)
  | [] => none
  | (aid, ag) :: rest =>
    if h = ag.admin_token_hash then some (Role.admin, aid)
    else if h = ag.share_token_hash then some (Role.user, aid)
    else lookupConnectedByHash h rest

/-- `AppState::authenticate` (state.rs:137).  `super_admin_token` is the
configured token; `hash` abstracts `hash_token`; `dbAdmin` / `dbShare` are
the persistence lookups `find_by_admin_token` / `find_by_share_token`
(a `none` covers a repository error, a miss, or an unparsable stored id,
all of which the source skips over identically). -/
def authenticate (super_admin_token : String) (hash : String → String)
    (st : AppState) (dbAdmin dbShare : String → Option Uuid)
    (token : String) : Option (Role × Option Uuid) :=
  if token = super_admin_token then some (Role.superAdmin, none)
  else
    let token_hash := hash token
    match lookupConnectedByHash token_hash st.agents with
    | some (r, aid) => some (r, some aid)
    | none =>
      match dbAdmin token with
      | some id => some (Role.admin, some id)
      | none =>
        match dbShare token with
        | some id => some (Role.user, some id)
        | none => none

/-- `AppState::get_instances` (state.rs:195). -/
def get_instances (st : AppState) (agent_id : Uuid) : List Instance :=
  match alistLookup agent_id st.agents with
  | some ag => ag.instances.map Prod.snd
  | none => []

/-- `AppState::add_instance` (state.rs:204). -/
def add_instance (st : AppState) (agent_id : Uuid) (inst : Instance) : AppState :=
  let f := fun ag => { ag with instances := alistInsert inst.id inst ag.instances }
  { st with agents := alistUpdate agent_id f st.agents }

/-- `AppState::remove_instance` (state.rs:212). -/
def remove_instance (st : AppState) (agent_id instance_id : Uuid) : AppState :=
  let f := fun ag => { ag with instances := alistRemove instance_id ag.instances }
  { st with agents := alistUpdate agent_id f st.agents }

/-- `AppState::send_to_agent` (state.rs:220).  A present target receives the
message on its channel; an absent target falls through to `Ok(())`. -/
def send_to_agent (st : AppState) (agent_id : Uuid) (msg : ServerToAgentMessage) :
    Except String (List Effect) :=
  match alistLookup agent_id st.agents with
  | some _ => Except.ok [Effect.toAgent agent_id msg]
  | none => Except.ok []

/-- `AppState::register_user` (state.rs:229).  The spec-modelled
`working_agent_id` starts unset. -/
def register_user (st : AppState) (session_id : Uuid) (role : Role)
    (agent_id : Option Uuid) : AppState :=
  let session : UserSession :=
    { id := session_id
      role := role
      agent_id := agent_id
      working_agent_id := none
      attached_instances := [] }
  { st with users := alistInsert session_id session st.users }

/-- `AppState::unregister_user` (state.rs:249). -/
def unregister_user (st : AppState) (session_id : Uuid) : AppState :=
  { st with users := alistRemove session_id st.users }

/-- `AppState::broadcast_to_instance` (state.rs:255): send to every session
whose `attached_instances` contains the id. -/
def broadcast_to_instance (st : AppState) (instance_id : Uuid)
    (msg : ServerToUserMessage) : List Effect :=
  st.users.filterMap (fun p =>
    if instance_id ∈ p.2.attached_instances then some (Effect.toUser p.1 msg) else none)

/-- `AppState::attach_user_to_instance` (state.rs:265): push the id onto the
session's attachment list unless already present. -/
def attach_user_to_instance (st : AppState) (session_id instance_id : Uuid) : AppState :=
  let f := fun s =>
    if instance_id ∈ s.attached_instances then s
    else { s with attached_instances := s.attached_instances ++ [instance_id] }
  { st with users := alistUpdate session_id f st.users }

/-- `AppState::detach_user_from_instance` (state.rs:275). -/
def detach_user_from_instance (st : AppState) (session_id instance_id : Uuid) : AppState :=
  let f := fun s =>
    { s with attached_instances := s.attached_instances.filter (fun id => id ≠ instance_id) }
  { st with users := alistUpdate session_id f st.users }

/-- `AppState::get_instance_user_count` (state.rs:283). -/
def get_instance_user_count (st : AppState) (instance_id : Uuid) : Nat :=
  (st.users.filter (fun p => instance_id ∈ p.2.attached_instances)).length

/-- `AppState::send_to_user` (state.rs:292): a missing session is an error. -/
def send_to_user (st : AppState) (session_id : Uuid) (msg : ServerToUserMessage) :
    Except String (List Effect) :=
  match alistLookup session_id st.users with
  | some _ => Except.ok [Effect.toUser session_id msg]
  | none => Except.error ("User session not found: " ++ toString session_id)

/-- A send whose result the caller discards (`let _ = state.send_to_user(...)`). -/
def send_to_user_quiet (st : AppState) (session_id : Uuid) (msg : ServerToUserMessage) :
    List Effect :=
  match send_to_user st session_id msg with
  | Except.ok effs => effs
  | Except.error _ => []

/-- `AppState::broadcast_agent_status` (state.rs:302): sessions bound to the
agent, and super admins (`agent_id` is `None`), get `agent_status_changed`. -/
def broadcast_agent_status (st : AppState) (agent_id : Uuid) (online : Bool) : List Effect :=
  st.users.filterMap (fun p =>
    if p.2.agent_id = some agent_id ∨ p.2.agent_id = none
    then some (Effect.toUser p.1 (ServerToUserMessage.agentStatusChanged agent_id online))
    else none)

/-- `AppState::update_agent_instances_status` (state.rs:314). -/
def update_agent_instances_status (st : AppState) (agent_id : Uuid)
    (status : InstanceStatus) : AppState :=
  let f := fun ag =>
    { ag with instances := ag.instances.map (fun p => (p.1, { p.2 with status := status })) }
  { st with agents := alistUpdate agent_id f st.agents }

/-- `AppState::restore_instance` (state.rs:325): if the instance exists under
the agent and is `Suspended`, flip it to `Running` and return `true`. -/
def restore_instance (st : AppState) (agent_id instance_id : Uuid) : AppState × Bool :=
  match alistLookup agent_id st.agents with
  | none => (st, false)
  | some ag =>
    match alistLookup instance_id ag.instances with
    | none => (st, false)
    | some inst =>
      if inst.status = InstanceStatus.suspended then
        let inst2 := { inst with status := InstanceStatus.running }
        let ag2 := { ag with instances := alistInsert instance_id inst2 ag.instances }
        ({ st with agents := alistInsert agent_id ag2 st.agents }, true)
      else (st, false)

/-- Modelled from the spec: `AppState::get_effective_agent_id` is called by
ws_user.rs but its definition is not among the provided sources.  Per §4.6
of the spec, a SuperAdmin session resolves to its `working_agent_id` and
every other role to its bound `agent_id`. -/
def get_effective_agent_id (st : AppState) (session_id : Uuid) : Option Uuid :=
  match alistLookup session_id st.users with
  | none => none
  | some s =>
    match s.role with
    | .superAdmin => s.working_agent_id
    | _ => s.agent_id

/-! ## Agent-side handler (server/src/ws_agent.rs) -/

/-- An inbound frame on the agent control channel.  The websocket transport
and the JSON codec are external, so a `text` frame carries the result of
`AgentMessage::from_json` (with `none` for a malformed payload); `close`
is a `Message::Close` frame, `transportErr` a transport-level `Err`, and
`other` covers ping/pong/binary frames. -/
inductive WsFrame where
  | text (parsed : Option AgentMessage)
  | close
  | transportErr
  | other
deriving DecidableEq, Repr

/-- `wait_for_registration` (ws_agent.rs:138): scan inbound frames; a text
frame parsing as `register` yields the registration data, a close frame or
transport error (or stream end) yields `none`, and every other frame is
passed over by falling through to the next loop iteration. -/
def wait_for_registration :
    List WsFrame → Option (Uuid × String × String × String × List ExistingInstance)
  | [] => none
  | WsFrame.text (some (AgentMessage.register a n adm sh ex)) :: _ => some (a, n, adm, sh, ex)
  | WsFrame.text _ :: rest => wait_for_registration rest
  | WsFrame.close :: _ => none
  | WsFrame.transportErr :: _ => none
  | WsFrame.other :: rest => wait_for_registration rest

/-- True for a frame that `wait_for_registration` passes over. -/
def WsFrame.is_skipped : WsFrame → Bool
  | WsFrame.text (some (AgentMessage.register _ _ _ _ _)) => false
  | WsFrame.text _ => true
  | WsFrame.close => false
  | WsFrame.transportErr => false
  | WsFrame.other => true

/-- The free function `broadcast_to_agent_users` (ws_agent.rs:225): send to
every session bound to the agent, and to super admins (bound id `None`). -/
def broadcast_to_agent_users (st : AppState) (agent_id : Uuid)
    (msg : ServerToUserMessage) : List Effect :=
  st.users.filterMap (fun p =>
    if p.2.agent_id = some agent_id ∨ p.2.agent_id = none
    then some (Effect.toUser p.1 msg)
    else none)

/-- One iteration of the existing-instance recovery loop of
`handle_agent_connection` (ws_agent.rs:77-100): build an `Instance` with
status `Running` and `created_at = now`, try `restore_instance`, add it as
new only if the restore returned `false`, then broadcast `instance_created`
to the agent's users unconditionally. -/
def restore_loop_step (st : AppState) (agent_id : Uuid) (now : Nat)
    (existing : ExistingInstance) : AppState × List Effect :=
  let inst : Instance :=
    { id := existing.id
      agent_id := agent_id
      cwd := existing.cwd
      status := InstanceStatus.running
      created_at := now
      attached_users := 0 }
  let restored := restore_instance st agent_id existing.id
  let st2 := if restored.2 then restored.1 else add_instance restored.1 agent_id inst
  (st2, broadcast_to_agent_users st2 agent_id (ServerToUserMessage.instanceCreated inst))

/-- The end of `handle_agent_connection` (ws_agent.rs:131-133): when the
agent channel closes, mark the agent's instances `Suspended`, unregister
the agent, and broadcast the offline status. -/
def agent_disconnect (st : AppState) (agent_id : Uuid) : AppState × List Effect :=
  let st1 := update_agent_instances_status st agent_id InstanceStatus.suspended
  let unreg := unregister_agent st1 agent_id
  (unreg.1, unreg.2 ++ broadcast_agent_status unreg.1 agent_id false)

/-! ## User-side handler (server/src/ws_user.rs) -/

/-- `AppState::get_terminal_history` (state.rs:540) at its boundary: the
repository's stored records for an instance (a list of `output_data`
strings, `historyDb`) are wrapped into `pty_output` messages.  A disabled
history store or a repository error is the empty list. -/
def get_terminal_history (historyDb : Uuid → List String) (instance_id : Uuid) :
    List ServerToUserMessage :=
  (historyDb instance_id).map (fun d => ServerToUserMessage.ptyOutput instance_id d)

/-- `handle_user_message` (ws_user.rs:210), restricted to the non-admin
command arms.  `role` and `agent_id` are the values captured at
authentication time, as in the source; `fresh_id` stands for the
`Uuid::new_v4()` drawn in the create-instance arm; `historyDb` is the
terminal-history repository consulted by the attach arm.  The audit-log and
tracing calls of the source are external side effects outside the model. -/
def handle_user_message (st : AppState) (session_id : Uuid) (role : Role)
    (agent_id : Option Uuid) (fresh_id : Uuid) (historyDb : Uuid → List String) :
    UserMessage → Except String (AppState × List Effect)
  | UserMessage.auth _ => Except.ok (st, [])
  | UserMessage.createInstance cwd =>
    if ¬ role.can_create_instance then
      Except.error "Permission denied: cannot create instance"
    else
      match get_effective_agent_id st session_id with
      | none =>
        Except.error
          "No agent associated with session. SuperAdmin must select a working agent first."
      | some effective_agent_id =>
        match send_to_agent st effective_agent_id
            (ServerToAgentMessage.createInstance fresh_id cwd) with
        | Except.ok effs => Except.ok (st, effs)
        | Except.error e => Except.error e
  | UserMessage.closeInstance instance_id =>
    if ¬ role.can_close_instance then
      Except.error "Permission denied: cannot close instance"
    else
      match get_effective_agent_id st session_id with
      | none =>
        Except.error
          "No agent associated with session. SuperAdmin must select a working agent first."
      | some effective_agent_id =>
        match send_to_agent st effective_agent_id
            (ServerToAgentMessage.closeInstance instance_id) with
        | Except.ok effs => Except.ok (st, effs)
        | Except.error e => Except.error e
  | UserMessage.attach instance_id =>
    let st1 := attach_user_to_instance st session_id instance_id
    let history_effs :=
      (get_terminal_history historyDb instance_id).flatMap
        (fun m => send_to_user_quiet st1 session_id m)
    let user_count := get_instance_user_count st1 instance_id
    let joined := ServerToUserMessage.userJoined instance_id user_count
    Except.ok (st1, history_effs ++ broadcast_to_instance st1 instance_id joined)
  | UserMessage.detach instance_id =>
    let st1 := detach_user_from_instance st session_id instance_id
    let user_count := get_instance_user_count st1 instance_id
    let left := ServerToUserMessage.userLeft instance_id user_count
    Except.ok (st1, broadcast_to_instance st1 instance_id left)
  | UserMessage.ptyInput instance_id data =>
    match get_effective_agent_id st session_id with
    | some effective_agent_id =>
      match send_to_agent st effective_agent_id
          (ServerToAgentMessage.ptyInput instance_id data) with
      | Except.ok effs => Except.ok (st, effs)
      | Except.error e => Except.error e
    | none => Except.ok (st, [])
  | UserMessage.resize instance_id cols rows =>
    match get_effective_agent_id st session_id with
    | some effective_agent_id =>
      match send_to_agent st effective_agent_id
          (ServerToAgentMessage.resize instance_id cols rows) with
      | Except.ok effs => Except.ok (st, effs)
      | Except.error e => Except.error e
    | none => Except.ok (st, [])
  | UserMessage.listInstances =>
    match get_effective_agent_id st session_id with
    | some effective_agent_id =>
      let instances := get_instances st effective_agent_id
      match send_to_user st session_id (ServerToUserMessage.instanceList instances) with
      | Except.ok effs => Except.ok (st, effs)
      | Except.error e => Except.error e
    | none =>
      match send_to_user st session_id (ServerToUserMessage.instanceList []) with
      | Except.ok effs => Except.ok (st, effs)
      | Except.error e => Except.error e
  | UserMessage.heartbeat =>
    match send_to_user st session_id ServerToUserMessage.pong with
    | Except.ok effs => Except.ok (st, effs)
    | Except.error e => Except.error e

/-- The message-loop body of `handle_user_connection` (ws_user.rs:119-133):
a handler error is reported back to the session as an `error` frame over
its own channel and the loop continues with the session still registered.
In the modelled command arms every state mutation precedes any fallible
step, so the pre-call state is returned on error. -/
def process_user_frame (st : AppState) (session_id : Uuid) (role : Role)
    (agent_id : Option Uuid) (fresh_id : Uuid) (historyDb : Uuid → List String)
    (msg : UserMessage) : AppState × List Effect :=
  match handle_user_message st session_id role agent_id fresh_id historyDb msg with
  | Except.ok r => r
  | Except.error e => (st, send_to_user_quiet st session_id (ServerToUserMessage.error e))

/-! ## PTY output buffering (agent/src/pty.rs) -/

/-- `MAX_BUFFER_SIZE` (pty.rs:16): 1 MiB. -/
def MAX_BUFFER_SIZE : Nat := 1024 * 1024

/-- The read-buffer capacity of `spawn_reader_task` (pty.rs:413): each chunk
handed to `handle_output_data` holds at most 4096 bytes. -/
def READ_CHUNK_SIZE : Nat := 4096

/-- `Vec::drain(..n)` on the front of a buffer.  Rust panics when the range
end exceeds the length; the panic is modelled as `none`. -/
def vec_drain_front (buffer : List Byte) (n : Nat) : Option (List Byte) :=
  if n ≤ buffer.length then some (buffer.drop n) else none

/-- The disconnected branch of `PtyInstance::handle_output_data`
(pty.rs:466-476): append when the result fits in `MAX_BUFFER_SIZE`,
otherwise drain the oldest `overflow` bytes and then append. -/
def handle_output_data_disconnected (buffer data : List Byte) : Option (List Byte) :=
  if buffer.length + data.length ≤ MAX_BUFFER_SIZE then
    some (buffer ++ data)
  else
    match vec_drain_front buffer (buffer.length + data.length - MAX_BUFFER_SIZE) with
    | some drained => some (drained ++ data)
    | none => none

/-- Iterated buffering: the chunks a reader task hands to
`handle_output_data` while `is_connected` stays false, in order. -/
def run_disconnected (chunks : List (List Byte)) (buffer : List Byte) :
    Option (List Byte) :=
  chunks.foldl (fun acc c => acc.bind (fun b => handle_output_data_disconnected b c))
    (some buffer)

/-- The at-most-`MAX_BUFFER_SIZE`-byte tail of a byte stream. -/
def tail_keep (l : List Byte) : List Byte :=
  l.drop (l.length - MAX_BUFFER_SIZE)

/-! ## Helper lemmas on the map model -/

theorem alistLookup_insert_self {β : Type} (k : Uuid) (v : β) (l : List (Uuid × β)) :
    alistLookup k (alistInsert k v l) = some v := by
  induction l with
  | nil => simp [alistInsert, alistLookup]
  | cons p rest ih =>
    by_cases h : k = p.1
    · simp [alistInsert, alistLookup, h]
    · simp [alistInsert, alistLookup, h, ih]

theorem alistLookup_update_self {β : Type} (k : Uuid) (f : β → β) (l : List (Uuid × β)) :
    alistLookup k (alistUpdate k f l) = (alistLookup k l).map f := by
  induction l with
  | nil => simp [alistUpdate, alistLookup]
  | cons p rest ih =>
    by_cases h : k = p.1
    · simp [alistUpdate, alistLookup, h]
    · simp [alistUpdate, alistLookup, h, ih]

theorem alistLookup_mem {β : Type} {k : Uuid} {v : β} {l : List (Uuid × β)}
    (h : alistLookup k l = some v) : (k, v) ∈ l := by
  induction l with
  | nil => simp [alistLookup] at h
  | cons p rest ih =>
    by_cases hk : k = p.1
    · simp [alistLookup, hk] at h
      subst hk
      rcases p with ⟨k1, v1⟩
      simp_all
    · simp [alistLookup, hk] at h
      exact List.mem_cons_of_mem _ (ih h)

theorem restore_instance_users (st : AppState) (a i : Uuid) :
    (restore_instance st a i).1.users = st.users := by
  rcases h1 : alistLookup a st.agents with _ | ag
  · simp [restore_instance, h1]
  · rcases h2 : alistLookup i ag.instances with _ | inst
    · simp [restore_instance, h1, h2]
    · by_cases h3 : inst.status = InstanceStatus.suspended <;>
        simp [restore_instance, h1, h2, h3]

theorem add_instance_users (st : AppState) (a : Uuid) (inst : Instance) :
    (add_instance st a inst).users = st.users := rfl

/-! ## Claim C1 -/

/-- Concrete fixture for C1: one connected agent (id 0) holding one running
instance (id 10). -/
def C1_state : AppState :=
  { agents :=
      [(0,
        { name := "agent-zero"
          status := AgentStatus.online
          connected_at := some 1
          admin_token_hash := "ah"
          share_token_hash := "sh"
          instances :=
            [(10,
              { id := 10
                agent_id := 0
                cwd := "/tmp"
                status := InstanceStatus.running
                created_at := 1
                attached_users := 0 })] })]
    users := [] }

/-- C1: the claimed Running → Suspended → Running retention cycle does not
happen in the code.  On channel close the disconnect sequence first marks
the agent's instances Suspended but then `unregister_agent` removes the
whole agent entry together with its instance map, so nothing is retained
while the agent is away (conjuncts 2 and 3, at the concrete fixture), and
after any re-registration — which installs a fresh entry with an empty
instance map — `restore_instance` returns `false` for every instance id, so
the Suspended → Running restore transition is unreachable (conjunct 1, for
every state and every id). -/
theorem C1_suspend_restore_cycle_broken :
    (∀ (hash : String → String) (st : AppState) (a : Uuid) (nm adm sh : String)
       (now : Nat) (i : Uuid),
      (restore_instance
        (register_agent hash (agent_disconnect st a).1 a nm adm sh now).1 a i).2 = false)
  ∧ get_instances (agent_disconnect C1_state 0).1 0 = []
  ∧ alistLookup 0 (agent_disconnect C1_state 0).1.agents = none := by
  refine ⟨?_, by decide, by decide⟩
  intro hash st a nm adm sh now i
  simp [restore_instance, register_agent, alistLookup_insert_self, alistLookup]

/-! ## Claim C2 -/

theorem mem_send_to_user_quiet {st : AppState} {s : Uuid} {m : ServerToUserMessage}
    {e : Effect} (h : e ∈ send_to_user_quiet st s m) : e = Effect.toUser s m := by
  unfold send_to_user_quiet send_to_user at h
  rcases hl : alistLookup s st.users with _ | sess <;> simp [hl] at h
  exact h

theorem attach_lookup {st : AppState} {sid iid : Uuid} {sess : UserSession}
    (h : alistLookup sid st.users = some sess) :
    ∃ sess2, alistLookup sid (attach_user_to_instance st sid iid).users = some sess2
      ∧ iid ∈ sess2.attached_instances := by
  unfold attach_user_to_instance
  rw [alistLookup_update_self, h]
  by_cases hm : iid ∈ sess.attached_instances
  · exact ⟨sess, by simp [hm], hm⟩
  · exact ⟨{ sess with attached_instances := sess.attached_instances ++ [iid] },
      by simp [hm], by simp⟩

theorem broadcast_to_instance_mem_of_attached {st : AppState} {iid sid : Uuid}
    {sess : UserSession} (h : alistLookup sid st.users = some sess)
    (ha : iid ∈ sess.attached_instances) (m : ServerToUserMessage) :
    Effect.toUser sid m ∈ broadcast_to_instance st iid m := by
  unfold broadcast_to_instance
  rw [List.mem_filterMap]
  exact ⟨(sid, sess), alistLookup_mem h, by simp [ha]⟩

theorem mem_broadcast_to_instance {st : AppState} {iid : Uuid}
    {msg : ServerToUserMessage} {e : Effect}
    (h : e ∈ broadcast_to_instance st iid msg) : ∃ s, e = Effect.toUser s msg := by
  unfold broadcast_to_instance at h
  rw [List.mem_filterMap] at h
  obtain ⟨p, _, hp⟩ := h
  by_cases hc : iid ∈ p.2.attached_instances
  · rw [if_pos hc] at hp
    injection hp with hp
    exact ⟨p.1, hp.symm⟩
  · rw [if_neg hc] at hp
    exact absurd hp (by simp)

/-- Concrete fixture for C2: agents 0 and 1 are connected; instance 10 is
owned by agent 1; user session 5 has role User and is bound to agent 0. -/
def C2_state : AppState :=
  { agents :=
      [(0,
        { name := "agent-zero"
          status := AgentStatus.online
          connected_at := some 1
          admin_token_hash := "ah0"
          share_token_hash := "sh0"
          instances := [] }),
       (1,
        { name := "agent-one"
          status := AgentStatus.online
          connected_at := some 1
          admin_token_hash := "ah1"
          share_token_hash := "sh1"
          instances :=
            [(10,
              { id := 10
                agent_id := 1
                cwd := "/tmp"
                status := InstanceStatus.running
                created_at := 1
                attached_users := 0 })] })]
    users :=
      [(5,
        { id := 5
          role := Role.user
          agent_id := some 0
          working_agent_id := none
          attached_instances := [] })] }

/-- C2 counterexample: a User session bound to agent 0 attaches to instance
10, which is owned by the different agent 1.  No PermissionDenied error is
produced; the foreign instance id is added to the session's attached set
(so server state changes), the session is answered with `user_joined`, and
a subsequent `pty_output` broadcast for that instance is delivered to the
session — all contrary to the claim. -/
theorem C2_foreign_attach_succeeds :
    (alistLookup 5
        (process_user_frame C2_state 5 Role.user (some 0) 99 (fun _ => [])
          (UserMessage.attach 10)).1.users).map UserSession.attached_instances
      = some [10]
  ∧ (process_user_frame C2_state 5 Role.user (some 0) 99 (fun _ => [])
        (UserMessage.attach 10)).2
      = [Effect.toUser 5 (ServerToUserMessage.userJoined 10 1)]
  ∧ broadcast_to_instance
        (process_user_frame C2_state 5 Role.user (some 0) 99 (fun _ => [])
          (UserMessage.attach 10)).1
        10 (ServerToUserMessage.ptyOutput 10 "Zm9v")
      = [Effect.toUser 5 (ServerToUserMessage.ptyOutput 10 "Zm9v")] := by
  refine ⟨by decide, by decide, by decide⟩

/-- C2 amended: the user-side handler performs no per-instance ownership
check.  For every session and every instance id — in particular one owned
by a foreign agent — `attach` succeeds, adding the id to the session's
attached set with no `error` frame, after which the session receives every
broadcast for that instance; `detach` likewise succeeds with no `error`
frame, removing the id.  `pty_input`, `resize` and `close_instance` are
never checked against the named instance's owner: any agent command they
emit is addressed to the session's own effective agent, whatever instance
id is named, so a foreign owning agent receives nothing — but no
ownership-based PermissionDenied is produced; `close_instance`'s only check
is the role capability, a User-role session being answered
"Permission denied: cannot close instance" regardless of the instance
named. -/
theorem C2_no_ownership_check (st : AppState) (sid : Uuid) (role : Role)
    (aid : Option Uuid) (fresh : Uuid) (hdb : Uuid → List String) (iid : Uuid)
    (d : String) (cols rows : Nat) (sess : UserSession)
    (h : alistLookup sid st.users = some sess) :
    (∃ sess2,
        alistLookup sid
            (process_user_frame st sid role aid fresh hdb (UserMessage.attach iid)).1.users
          = some sess2
      ∧ iid ∈ sess2.attached_instances
      ∧ ∀ m, Effect.toUser sid m ∈ broadcast_to_instance
          (process_user_frame st sid role aid fresh hdb (UserMessage.attach iid)).1 iid m)
  ∧ (∀ s m, Effect.toUser s (ServerToUserMessage.error m)
        ∉ (process_user_frame st sid role aid fresh hdb (UserMessage.attach iid)).2)
  ∧ (∃ sess3,
        alistLookup sid
            (process_user_frame st sid role aid fresh hdb (UserMessage.detach iid)).1.users
          = some sess3
      ∧ iid ∉ sess3.attached_instances)
  ∧ (∀ s m, Effect.toUser s (ServerToUserMessage.error m)
        ∉ (process_user_frame st sid role aid fresh hdb (UserMessage.detach iid)).2)
  ∧ (∀ b m, Effect.toAgent b m
        ∈ (process_user_frame st sid role aid fresh hdb (UserMessage.ptyInput iid d)).2
      → get_effective_agent_id st sid = some b)
  ∧ (∀ b m, Effect.toAgent b m
        ∈ (process_user_frame st sid role aid fresh hdb
            (UserMessage.resize iid cols rows)).2
      → get_effective_agent_id st sid = some b)
  ∧ (∀ b m, Effect.toAgent b m
        ∈ (process_user_frame st sid role aid fresh hdb
            (UserMessage.closeInstance iid)).2
      → get_effective_agent_id st sid = some b)
  ∧ process_user_frame st sid Role.user aid fresh hdb (UserMessage.closeInstance iid)
      = (st,
         [Effect.toUser sid
           (ServerToUserMessage.error "Permission denied: cannot close instance")]) := by
  refine ⟨?_, ?_, ?_, ?_, ?_, ?_, ?_, ?_⟩
  · obtain ⟨sess2, h2, hmem⟩ := @attach_lookup st sid iid sess h
    refine ⟨sess2, ?_, ?_, ?_⟩
    · simpa [process_user_frame, handle_user_message] using h2
    · exact hmem
    · intro m
      have := broadcast_to_instance_mem_of_attached h2 hmem m
      simpa [process_user_frame, handle_user_message] using this
  · intro s m hmem
    simp only [process_user_frame, handle_user_message, List.mem_append] at hmem
    rcases hmem with hh | hb
    · rw [List.mem_flatMap] at hh
      obtain ⟨x, hx, he⟩ := hh
      have := mem_send_to_user_quiet he
      unfold get_terminal_history at hx
      rw [List.mem_map] at hx
      obtain ⟨y, _, hy⟩ := hx
      rw [← hy] at this
      exact ServerToUserMessage.noConfusion (Effect.toUser.injEq _ _ _ _ |>.mp this).2
    · obtain ⟨s2, he⟩ := mem_broadcast_to_instance hb
      exact ServerToUserMessage.noConfusion (Effect.toUser.injEq _ _ _ _ |>.mp he).2
  · simp only [process_user_frame, handle_user_message, detach_user_from_instance]
    rw [alistLookup_update_self, h]
    refine ⟨_, rfl, ?_⟩
    simp
  · intro s m hmem
    simp only [process_user_frame, handle_user_message] at hmem
    obtain ⟨s2, he⟩ := mem_broadcast_to_instance hmem
    exact ServerToUserMessage.noConfusion (Effect.toUser.injEq _ _ _ _ |>.mp he).2
  · intro b m hmem
    rcases heff : get_effective_agent_id st sid with _ | e
    · simp [process_user_frame, handle_user_message, heff] at hmem
    · rcases hag : alistLookup e st.agents with _ | ag
      · simp [process_user_frame, handle_user_message, heff, send_to_agent, hag] at hmem
      · simp [process_user_frame, handle_user_message, heff, send_to_agent, hag] at hmem
        rw [hmem.1]
  · intro b m hmem
    rcases heff : get_effective_agent_id st sid with _ | e
    · simp [process_user_frame, handle_user_message, heff] at hmem
    · rcases hag : alistLookup e st.agents with _ | ag
      · simp [process_user_frame, handle_user_message, heff, send_to_agent, hag] at hmem
      · simp [process_user_frame, handle_user_message, heff, send_to_agent, hag] at hmem
        rw [hmem.1]
  · intro b m hmem
    by_cases hc : role.can_close_instance
    · rcases heff : get_effective_agent_id st sid with _ | e
      · simp [process_user_frame, handle_user_message, hc, heff, send_to_user_quiet,
          send_to_user, h] at hmem
      · rcases hag : alistLookup e st.agents with _ | ag
        · simp [process_user_frame, handle_user_message, hc, heff, send_to_agent,
            hag] at hmem
        · simp [process_user_frame, handle_user_message, hc, heff, send_to_agent,
            hag] at hmem
          rw [hmem.1]
    · simp [process_user_frame, handle_user_message, hc, send_to_user_quiet,
        send_to_user, h] at hmem
  · simp [process_user_frame, handle_user_message, Role.can_close_instance,
      send_to_user_quiet, send_to_user, h]

/-- C2 amended, witness at the concrete fixture: the attach, detach and
User-role close_instance conclusions, instantiated. -/
theorem C2_no_ownership_check_witness :
    alistLookup 5 C2_state.users
      = some { id := 5, role := Role.user, agent_id := some 0, working_agent_id := none,
               attached_instances := [] }
  ∧ (∃ sess2,
      alistLookup 5
          (process_user_frame C2_state 5 Role.user (some 0) 99 (fun _ => [])
            (UserMessage.attach 10)).1.users
        = some sess2
      ∧ (10 : Uuid) ∈ sess2.attached_instances)
  ∧ (∃ sess3,
      alistLookup 5
          (process_user_frame C2_state 5 Role.user (some 0) 99 (fun _ => [])
            (UserMessage.detach 10)).1.users
        = some sess3
      ∧ (10 : Uuid) ∉ sess3.attached_instances)
  ∧ process_user_frame C2_state 5 Role.user (some 0) 99 (fun _ => [])
        (UserMessage.closeInstance 10)
      = (C2_state,
         [Effect.toUser 5
           (ServerToUserMessage.error "Permission denied: cannot close instance")]) :=
  ⟨by decide,
   ((C2_no_ownership_check C2_state 5 Role.user (some 0) 99 (fun _ => []) 10 "ZA==" 80 24
      { id := 5, role := Role.user, agent_id := some 0, working_agent_id := none,
        attached_instances := [] }
      (by decide)).1).imp (fun _ hx => ⟨hx.1, hx.2.1⟩),
   (C2_no_ownership_check C2_state 5 Role.user (some 0) 99 (fun _ => []) 10 "ZA==" 80 24
      { id := 5, role := Role.user, agent_id := some 0, working_agent_id := none,
        attached_instances := [] }
      (by decide)).2.2.1,
   (C2_no_ownership_check C2_state 5 Role.user (some 0) 99 (fun _ => []) 10 "ZA==" 80 24
      { id := 5, role := Role.user, agent_id := some 0, working_agent_id := none,
        attached_instances := [] }
      (by decide)).2.2.2.2.2.2.2⟩

/-! ## Claims C3 and C10 -/

theorem tail_keep_le (l : List Byte) : (tail_keep l).length ≤ MAX_BUFFER_SIZE := by
  have h : (tail_keep l).length = l.length - (l.length - MAX_BUFFER_SIZE) := by
    simp [tail_keep]
  omega

/-- One disconnected-buffering step preserves being the ≤ 1 MiB tail of the
byte stream produced so far. -/
theorem tail_keep_step (S c : List Byte) (hc : c.length ≤ MAX_BUFFER_SIZE) :
    handle_output_data_disconnected (tail_keep S) c = some (tail_keep (S ++ c)) := by
  have hdl : (tail_keep S).length = S.length - (S.length - MAX_BUFFER_SIZE) := by
    simp [tail_keep]
  by_cases h : (tail_keep S).length + c.length ≤ MAX_BUFFER_SIZE
  · have h' : S.length - (S.length - MAX_BUFFER_SIZE) + c.length ≤ MAX_BUFFER_SIZE := by
      rw [← hdl]; exact h
    unfold handle_output_data_disconnected
    rw [if_pos h]
    refine congrArg some ?_
    unfold tail_keep
    rw [List.length_append, List.drop_append_eq_append_drop]
    have e1 : S.length - MAX_BUFFER_SIZE = S.length + c.length - MAX_BUFFER_SIZE := by omega
    have e2 : S.length + c.length - MAX_BUFFER_SIZE - S.length = 0 := by omega
    rw [e1, e2, List.drop_zero]
  · have h' : ¬ S.length - (S.length - MAX_BUFFER_SIZE) + c.length ≤ MAX_BUFFER_SIZE := by
      rw [← hdl]; exact h
    have ho : (tail_keep S).length + c.length - MAX_BUFFER_SIZE ≤ (tail_keep S).length := by
      omega
    have hv : vec_drain_front (tail_keep S) ((tail_keep S).length + c.length - MAX_BUFFER_SIZE)
        = some ((tail_keep S).drop ((tail_keep S).length + c.length - MAX_BUFFER_SIZE)) := by
      unfold vec_drain_front
      rw [if_pos ho]
    unfold handle_output_data_disconnected
    rw [if_neg h, hv]
    refine congrArg some ?_
    unfold tail_keep
    rw [List.drop_drop, List.length_drop, List.length_append,
      List.drop_append_eq_append_drop]
    have e1 : S.length - MAX_BUFFER_SIZE
        + (S.length - (S.length - MAX_BUFFER_SIZE) + c.length - MAX_BUFFER_SIZE)
        = S.length + c.length - MAX_BUFFER_SIZE := by omega
    have e2 : S.length + c.length - MAX_BUFFER_SIZE - S.length = 0 := by omega
    rw [e1, e2, List.drop_zero]

/-- Folding the disconnected-buffering step keeps the buffer equal to the
≤ 1 MiB tail of the whole stream. -/
theorem run_disconnected_tail_keep (chunks : List (List Byte))
    (hb : ∀ c ∈ chunks, c.length ≤ MAX_BUFFER_SIZE) (S : List Byte) :
    run_disconnected chunks (tail_keep S) = some (tail_keep (S ++ chunks.flatten)) := by
  induction chunks generalizing S with
  | nil => simp [run_disconnected]
  | cons c cs ih =>
    have hc : c.length ≤ MAX_BUFFER_SIZE := hb c (List.mem_cons_self c cs)
    have step := tail_keep_step S c hc
    have ihc := ih (fun x hx => hb x (List.mem_cons_of_mem _ hx)) (S ++ c)
    unfold run_disconnected at ihc ⊢
    simp only [List.foldl_cons]
    have hacc : ((some (tail_keep S)).bind fun b => handle_output_data_disconnected b c)
        = some (tail_keep (S ++ c)) := step
    rw [hacc, List.flatten_cons, ← List.append_assoc]
    exact ihc

/-- C3: for every sequence of output chunks handled in the disconnected
branch (each at most `READ_CHUNK_SIZE = 4096` bytes, the reader's cap), and
after each step (every prefix `take n`), the buffering neither panics nor
exceeds 1 MiB: starting from an empty buffer the result is exactly the
at-most-1 MiB tail of the concatenated stream, whose length is at most
`MAX_BUFFER_SIZE`; in particular when an append would exceed the limit
exactly the oldest overflow bytes are dropped. -/
theorem C3_buffer_keeps_bounded_tail (chunks : List (List Byte))
    (hb : ∀ c ∈ chunks, c.length ≤ READ_CHUNK_SIZE) (n : Nat) :
    run_disconnected (chunks.take n) [] = some (tail_keep (chunks.take n).flatten)
  ∧ (tail_keep (chunks.take n).flatten).length ≤ MAX_BUFFER_SIZE := by
  have hsmall : READ_CHUNK_SIZE ≤ MAX_BUFFER_SIZE := by
    norm_num [READ_CHUNK_SIZE, MAX_BUFFER_SIZE]
  have hb' : ∀ c ∈ chunks.take n, c.length ≤ MAX_BUFFER_SIZE := fun c hc =>
    le_trans (hb c (List.take_subset n chunks hc)) hsmall
  have main := run_disconnected_tail_keep (chunks.take n) hb' []
  have hnil : tail_keep [] = ([] : List Byte) := rfl
  rw [hnil, List.nil_append] at main
  exact ⟨main, tail_keep_le _⟩

/-- C3, witness: three bytes in one chunk are buffered verbatim. -/
theorem C3_buffer_keeps_bounded_tail_witness :
    run_disconnected ([[1, 2, 3]].take 1) []
      = some (tail_keep ([[1, 2, 3]].take 1).flatten)
  ∧ (tail_keep ([[1, 2, 3]].take 1).flatten).length ≤ MAX_BUFFER_SIZE :=
  C3_buffer_keeps_bounded_tail [[1, 2, 3]] (by decide) 1

/-- C10: for every incoming chunk of at most 1 MiB (and the reader task's
chunks are capped at `READ_CHUNK_SIZE = 4096 ≤ 1 MiB` bytes), the computed
overflow never exceeds the current buffer length, so the front drain is in
bounds and `handle_output_data` cannot panic. -/
theorem C10_overflow_drain_in_bounds (buffer data : List Byte)
    (h : data.length ≤ MAX_BUFFER_SIZE) :
    buffer.length + data.length - MAX_BUFFER_SIZE ≤ buffer.length
  ∧ (∃ b, handle_output_data_disconnected buffer data = some b)
  ∧ READ_CHUNK_SIZE ≤ MAX_BUFFER_SIZE := by
  refine ⟨by omega, ?_, by norm_num [READ_CHUNK_SIZE, MAX_BUFFER_SIZE]⟩
  by_cases hle : buffer.length + data.length ≤ MAX_BUFFER_SIZE
  · refine ⟨buffer ++ data, ?_⟩
    unfold handle_output_data_disconnected
    rw [if_pos hle]
  · have ho : buffer.length + data.length - MAX_BUFFER_SIZE ≤ buffer.length := by omega
    have hv : vec_drain_front buffer (buffer.length + data.length - MAX_BUFFER_SIZE)
        = some (buffer.drop (buffer.length + data.length - MAX_BUFFER_SIZE)) := by
      unfold vec_drain_front
      rw [if_pos ho]
    refine ⟨buffer.drop (buffer.length + data.length - MAX_BUFFER_SIZE) ++ data, ?_⟩
    unfold handle_output_data_disconnected
    rw [if_neg hle, hv]

/-- C10, witness at a concrete chunk. -/
theorem C10_overflow_drain_in_bounds_witness :
    ([1, 2] : List Byte).length + ([3] : List Byte).length - MAX_BUFFER_SIZE
        ≤ ([1, 2] : List Byte).length
  ∧ (∃ b, handle_output_data_disconnected [1, 2] [3] = some b)
  ∧ READ_CHUNK_SIZE ≤ MAX_BUFFER_SIZE :=
  C10_overflow_drain_in_bounds [1, 2] [3] (by norm_num [MAX_BUFFER_SIZE])

/-! ## Claim C4 -/

/-- C4: a User-role session's `create_instance` fails its capability check
before anything else: the state (and hence the session registry entry) is
unchanged, the session is answered with exactly one `error` frame over its
own channel, and no message of any kind is sent to any agent. -/
theorem C4_user_create_instance_denied (st : AppState) (sid : Uuid)
    (aid : Option Uuid) (fresh : Uuid) (hdb : Uuid → List String) (cwd : String)
    (sess : UserSession) (h : alistLookup sid st.users = some sess) :
    process_user_frame st sid Role.user aid fresh hdb (UserMessage.createInstance cwd)
      = (st,
         [Effect.toUser sid
           (ServerToUserMessage.error "Permission denied: cannot create instance")])
  ∧ alistLookup sid
      (process_user_frame st sid Role.user aid fresh hdb
        (UserMessage.createInstance cwd)).1.users = some sess := by
  have hmain : process_user_frame st sid Role.user aid fresh hdb
      (UserMessage.createInstance cwd)
      = (st,
         [Effect.toUser sid
           (ServerToUserMessage.error "Permission denied: cannot create instance")]) := by
    simp [process_user_frame, handle_user_message, Role.can_create_instance,
      send_to_user_quiet, send_to_user, h]
  exact ⟨hmain, by rw [hmain]; exact h⟩

/-- C4, witness at the C2 fixture (session 5 has role User). -/
theorem C4_user_create_instance_denied_witness :
    process_user_frame C2_state 5 Role.user (some 0) 99 (fun _ => [])
        (UserMessage.createInstance "/tmp")
      = (C2_state,
         [Effect.toUser 5
           (ServerToUserMessage.error "Permission denied: cannot create instance")])
  ∧ alistLookup 5
      (process_user_frame C2_state 5 Role.user (some 0) 99 (fun _ => [])
        (UserMessage.createInstance "/tmp")).1.users
      = some { id := 5, role := Role.user, agent_id := some 0, working_agent_id := none,
               attached_instances := [] } :=
  C4_user_create_instance_denied C2_state 5 (some 0) 99 (fun _ => []) "/tmp"
    { id := 5, role := Role.user, agent_id := some 0, working_agent_id := none,
      attached_instances := [] }
    (by decide)

/-! ## Claim C5 -/

/-- The in-memory fast path only ever resolves to the Admin or User role. -/
theorem lookupConnectedByHash_role {h : String} {l : List (Uuid × ConnectedAgent)}
    {r : Role} {aid : Uuid} (hl : lookupConnectedByHash h l = some (r, aid)) :
    r = Role.admin ∨ r = Role.user := by
  induction l with
  | nil => simp [lookupConnectedByHash] at hl
  | cons q rest ih =>
    obtain ⟨k, ag⟩ := q
    simp only [lookupConnectedByHash] at hl
    by_cases h1 : h = ag.admin_token_hash
    · rw [if_pos h1] at hl
      injection hl with h3
      exact Or.inl (congrArg Prod.fst h3).symm
    · rw [if_neg h1] at hl
      by_cases h2 : h = ag.share_token_hash
      · rw [if_pos h2] at hl
        injection hl with h3
        exact Or.inr (congrArg Prod.fst h3).symm
      · rw [if_neg h2] at hl
        exact ih hl

/-- C5: the lookup order of `authenticate`.  The result is
`(SuperAdmin, none)` exactly for the byte-equal configured super-admin
token; otherwise a hash hit on a connected agent's admin (resp. share)
token hash yields `(Admin, that id)` (resp. `(User, that id)`) without
consulting persistence; otherwise persistence is queried by admin hash and
then by share hash; and the result is `none` exactly when all of these
fail. -/
theorem C5_authenticate_lookup_order (super : String) (hashf : String → String)
    (st : AppState) (dbA dbS : String → Option Uuid) (token : String) :
    (authenticate super hashf st dbA dbS token = some (Role.superAdmin, none)
      ↔ token = super)
  ∧ (∀ r aid, token ≠ super →
      lookupConnectedByHash (hashf token) st.agents = some (r, aid) →
      authenticate super hashf st dbA dbS token = some (r, some aid))
  ∧ (token ≠ super → lookupConnectedByHash (hashf token) st.agents = none →
      (∀ i, dbA token = some i →
        authenticate super hashf st dbA dbS token = some (Role.admin, some i))
      ∧ (dbA token = none → ∀ i, dbS token = some i →
        authenticate super hashf st dbA dbS token = some (Role.user, some i)))
  ∧ (authenticate super hashf st dbA dbS token = none
      ↔ token ≠ super ∧ lookupConnectedByHash (hashf token) st.agents = none
        ∧ dbA token = none ∧ dbS token = none) := by
  by_cases hs : token = super
  · simp [authenticate, hs]
  · rcases hl : lookupConnectedByHash (hashf token) st.agents with _ | p
    · rcases hA : dbA token with _ | i
      · rcases hB : dbS token with _ | j
        · simp [authenticate, hs, hl, hA, hB]
        · simp [authenticate, hs, hl, hA, hB]
      · simp [authenticate, hs, hl, hA]
    · obtain ⟨r, aid⟩ := p
      have hr := lookupConnectedByHash_role hl
      rcases hr with hr | hr <;> subst hr <;> simp [authenticate, hs, hl]

/-- C5, witness: a concrete state where the token hash hits a connected
agent's share hash, so the fast path answers `(User, agent 3)`. -/
theorem C5_authenticate_lookup_order_witness :
    authenticate "root" (fun s => s ++ "#") 
        { agents :=
            [(3,
              { name := "a3"
                status := AgentStatus.online
                connected_at := some 1
                admin_token_hash := "adm#"
                share_token_hash := "shr#"
                instances := [] })]
          users := [] }
        (fun _ => none) (fun _ => none) "shr"
      = some (Role.user, some 3) :=
  (C5_authenticate_lookup_order "root" (fun s => s ++ "#")
      { agents :=
          [(3,
            { name := "a3"
              status := AgentStatus.online
              connected_at := some 1
              admin_token_hash := "adm#"
              share_token_hash := "shr#"
              instances := [] })]
        users := [] }
      (fun _ => none) (fun _ => none) "shr").2.1 Role.user 3
    (by decide) (by decide)

/-! ## Claim C6 -/

/-- Concrete fixture for C6: a SuperAdmin session (id 6) with no bound agent
and no working agent selected; one agent (id 0) is connected. -/
def C6_state : AppState :=
  { agents :=
      [(0,
        { name := "agent-zero"
          status := AgentStatus.online
          connected_at := some 1
          admin_token_hash := "ah0"
          share_token_hash := "sh0"
          instances := [] })]
    users :=
      [(6,
        { id := 6
          role := Role.superAdmin
          agent_id := none
          working_agent_id := none
          attached_instances := [] })] }

/-- C6 counterexample: a SuperAdmin with no working agent sends `pty_input`
(and `resize`): the handler returns successfully with no effects at all —
the command is silently dropped instead of being answered with an error
frame as the claim states. -/
theorem C6_ptyinput_dropped_silently :
    process_user_frame C6_state 6 Role.superAdmin none 99 (fun _ => [])
        (UserMessage.ptyInput 7 "ZGF0YQ==")
      = (C6_state, [])
  ∧ process_user_frame C6_state 6 Role.superAdmin none 99 (fun _ => [])
        (UserMessage.resize 7 80 24)
      = (C6_state, []) :=
  ⟨by decide, by decide⟩

/-- C6 amended: for a SuperAdmin session with no effective agent,
`list_instances` is answered with an empty `instance_list`;
`create_instance` and `close_instance` are answered with an `error` frame;
but `pty_input` and `resize` are silently ignored — no reply of any kind is
sent and the state is unchanged. -/
theorem C6_no_working_agent_behaviour (st : AppState) (sid : Uuid)
    (aid : Option Uuid) (fresh : Uuid) (hdb : Uuid → List String)
    (cwd d : String) (iid cols rows : Nat) (sess : UserSession)
    (h : alistLookup sid st.users = some sess)
    (hrole : sess.role = Role.superAdmin)
    (hw : sess.working_agent_id = none) :
    process_user_frame st sid Role.superAdmin aid fresh hdb UserMessage.listInstances
      = (st, [Effect.toUser sid (ServerToUserMessage.instanceList [])])
  ∧ process_user_frame st sid Role.superAdmin aid fresh hdb
        (UserMessage.createInstance cwd)
      = (st,
         [Effect.toUser sid (ServerToUserMessage.error
           "No agent associated with session. SuperAdmin must select a working agent first.")])
  ∧ process_user_frame st sid Role.superAdmin aid fresh hdb
        (UserMessage.closeInstance iid)
      = (st,
         [Effect.toUser sid (ServerToUserMessage.error
           "No agent associated with session. SuperAdmin must select a working agent first.")])
  ∧ process_user_frame st sid Role.superAdmin aid fresh hdb
        (UserMessage.ptyInput iid d)
      = (st, [])
  ∧ process_user_frame st sid Role.superAdmin aid fresh hdb
        (UserMessage.resize iid cols rows)
      = (st, []) := by
  have heff : get_effective_agent_id st sid = none := by
    simp [get_effective_agent_id, h, hrole, hw]
  refine ⟨?_, ?_, ?_, ?_, ?_⟩ <;>
    simp [process_user_frame, handle_user_message, heff, Role.can_create_instance,
      Role.can_close_instance, send_to_user_quiet, send_to_user, h]

/-- C6 amended, witness at the concrete fixture. -/
theorem C6_no_working_agent_behaviour_witness :
    process_user_frame C6_state 6 Role.superAdmin none 99 (fun _ => [])
        UserMessage.listInstances
      = (C6_state, [Effect.toUser 6 (ServerToUserMessage.instanceList [])])
  ∧ process_user_frame C6_state 6 Role.superAdmin none 99 (fun _ => [])
        (UserMessage.createInstance "/tmp")
      = (C6_state,
         [Effect.toUser 6 (ServerToUserMessage.error
           "No agent associated with session. SuperAdmin must select a working agent first.")])
  ∧ process_user_frame C6_state 6 Role.superAdmin none 99 (fun _ => [])
        (UserMessage.closeInstance 7)
      = (C6_state,
         [Effect.toUser 6 (ServerToUserMessage.error
           "No agent associated with session. SuperAdmin must select a working agent first.")])
  ∧ process_user_frame C6_state 6 Role.superAdmin none 99 (fun _ => [])
        (UserMessage.ptyInput 7 "ZA==")
      = (C6_state, [])
  ∧ process_user_frame C6_state 6 Role.superAdmin none 99 (fun _ => [])
        (UserMessage.resize 7 80 24)
      = (C6_state, []) :=
  C6_no_working_agent_behaviour C6_state 6 none 99 (fun _ => []) "/tmp" "ZA==" 7 80 24
    { id := 6, role := Role.superAdmin, agent_id := none, working_agent_id := none,
      attached_instances := [] }
    (by decide) rfl rfl

/-! ## Claim C7 -/

/-- C7 counterexample: `send_to_agent` for an agent id absent from the
registry returns `Ok` (with nothing sent), not an error as the claim
states. -/
theorem C7_missing_agent_silent_ok :
    send_to_agent { agents := [], users := [] } 99 ServerToAgentMessage.ping
      = Except.ok [] := rfl

/-- C7 amended: for a missing target, `send_to_agent` silently succeeds
with nothing sent, while `send_to_user` does return an error; neither
touches any registry (both only read the state). -/
theorem C7_send_missing_target (st : AppState) (a u : Uuid)
    (ma : ServerToAgentMessage) (mu : ServerToUserMessage)
    (ha : alistLookup a st.agents = none) (hu : alistLookup u st.users = none) :
    send_to_agent st a ma = Except.ok []
  ∧ send_to_user st u mu
      = Except.error ("User session not found: " ++ toString u) := by
  constructor
  · simp [send_to_agent, ha]
  · simp [send_to_user, hu]

/-- C7 amended, witness on the empty state. -/
theorem C7_send_missing_target_witness :
    send_to_agent { agents := [], users := [] } 99 ServerToAgentMessage.ping
        = Except.ok []
  ∧ send_to_user { agents := [], users := [] } 98 ServerToUserMessage.pong
      = Except.error ("User session not found: " ++ toString (98 : Uuid)) :=
  C7_send_missing_target { agents := [], users := [] } 99 98
    ServerToAgentMessage.ping ServerToUserMessage.pong rfl rfl

/-! ## Claim C8 -/

/-- C8 counterexample: the first frame is a text frame that is not a
well-formed register message, yet the channel is not closed — the agent is
registered from the second frame. -/
theorem C8_register_from_second_frame :
    wait_for_registration
        [WsFrame.text none,
         WsFrame.text (some (AgentMessage.register 1 "agent-one" "adm" "shr" []))]
      = some (1, "agent-one", "adm", "shr", []) := rfl

/-- C8 amended: `wait_for_registration` skips every frame that is neither a
well-formed register, a close frame, nor a transport error, and accepts a
register from any later position; the channel is given up only on a close
frame or a transport error (or stream end). -/
theorem C8_registration_skips_nonregister_frames (pre rest : List WsFrame)
    (a : Uuid) (n adm sh : String) (ex : List ExistingInstance)
    (hpre : ∀ f ∈ pre, f.is_skipped = true) :
    wait_for_registration
        (pre ++ WsFrame.text (some (AgentMessage.register a n adm sh ex)) :: rest)
      = some (a, n, adm, sh, ex)
  ∧ (∀ l, wait_for_registration (WsFrame.close :: l) = none)
  ∧ (∀ l, wait_for_registration (WsFrame.transportErr :: l) = none) := by
  refine ⟨?_, fun l => rfl, fun l => rfl⟩
  induction pre with
  | nil => rfl
  | cons f fs ih =>
    have hf := hpre f (List.mem_cons_self f fs)
    have hrec := ih (fun x hx => hpre x (List.mem_cons_of_mem _ hx))
    cases f with
    | text p =>
      cases p with
      | none => exact hrec
      | some m =>
        cases m with
        | register a2 n2 adm2 sh2 ex2 => simp [WsFrame.is_skipped] at hf
        | instanceCreated iid cwd => exact hrec
        | instanceClosed iid => exact hrec
        | ptyOutput iid d => exact hrec
        | heartbeat => exact hrec
        | error msg => exact hrec
    | close => simp [WsFrame.is_skipped] at hf
    | transportErr => simp [WsFrame.is_skipped] at hf
    | other => exact hrec

/-- C8 amended, witness: one malformed text frame before the register. -/
theorem C8_registration_skips_nonregister_frames_witness :
    wait_for_registration
        ([WsFrame.text none]
          ++ WsFrame.text (some (AgentMessage.register 1 "agent-one" "adm" "shr" [])) :: [])
      = some (1, "agent-one", "adm", "shr", [])
  ∧ (∀ l, wait_for_registration (WsFrame.close :: l) = none)
  ∧ (∀ l, wait_for_registration (WsFrame.transportErr :: l) = none) :=
  C8_registration_skips_nonregister_frames [WsFrame.text none] [] 1 "agent-one" "adm"
    "shr" [] (by decide)

/-! ## Claim C9 -/

/-- Concrete fixture for C9: agent 0 is connected and holds instance 10 in
Suspended state; user session 5 is bound to agent 0. -/
def C9_state : AppState :=
  { agents :=
      [(0,
        { name := "agent-zero"
          status := AgentStatus.online
          connected_at := some 1
          admin_token_hash := "ah0"
          share_token_hash := "sh0"
          instances :=
            [(10,
              { id := 10
                agent_id := 0
                cwd := "/tmp"
                status := InstanceStatus.suspended
                created_at := 1
                attached_users := 0 })] })]
    users :=
      [(5,
        { id := 5
          role := Role.user
          agent_id := some 0
          working_agent_id := none
          attached_instances := [] })] }

/-- C9 counterexample: instance 10 is Suspended, so `restore_instance`
returns `true`, yet the recovery loop still broadcasts `instance_created`
for it to the agent's user — the broadcast is unconditional, contrary to
the claim that a restored instance produces no broadcast. -/
theorem C9_broadcast_despite_restore :
    (restore_instance C9_state 0 10).2 = true
  ∧ (restore_loop_step C9_state 0 99 { id := 10, cwd := "/tmp" }).2
      = [Effect.toUser 5 (ServerToUserMessage.instanceCreated
          { id := 10, agent_id := 0, cwd := "/tmp", status := InstanceStatus.running,
            created_at := 99, attached_users := 0 })] :=
  ⟨by decide, by decide⟩

/-- C9 amended: for every id in the existing-instance list the recovery
loop broadcasts `instance_created` to every session bound to the agent (and
to every super-admin session), whether `restore_instance` returned `true`
or `false`; only the `add_instance` insertion is conditional on the restore
result. -/
theorem C9_restore_loop_always_broadcasts (st : AppState) (a : Uuid) (now : Nat)
    (ex : ExistingInstance) (sid : Uuid) (sess : UserSession)
    (h : alistLookup sid st.users = some sess)
    (hb : sess.agent_id = some a ∨ sess.agent_id = none) :
    Effect.toUser sid (ServerToUserMessage.instanceCreated
        { id := ex.id, agent_id := a, cwd := ex.cwd, status := InstanceStatus.running,
          created_at := now, attached_users := 0 })
      ∈ (restore_loop_step st a now ex).2 := by
  have husers : (restore_loop_step st a now ex).1.users = st.users := by
    unfold restore_loop_step
    by_cases hr : (restore_instance st a ex.id).2 <;>
      simp [hr, add_instance_users, restore_instance_users]
  have hmem : (sid, sess) ∈ (restore_loop_step st a now ex).1.users := by
    rw [husers]
    exact alistLookup_mem h
  show Effect.toUser sid _ ∈ broadcast_to_agent_users (restore_loop_step st a now ex).1 a _
  unfold broadcast_to_agent_users
  rw [List.mem_filterMap]
  exact ⟨(sid, sess), hmem, by rw [if_pos hb]⟩

/-- C9 amended, witness at the concrete fixture (where the restore path is
the one taken). -/
theorem C9_restore_loop_always_broadcasts_witness :
    (restore_instance C9_state 0 10).2 = true
  ∧ Effect.toUser 5 (ServerToUserMessage.instanceCreated
        { id := 10, agent_id := 0, cwd := "/tmp", status := InstanceStatus.running,
          created_at := 99, attached_users := 0 })
      ∈ (restore_loop_step C9_state 0 99 { id := 10, cwd := "/tmp" }).2 :=
  ⟨by decide,
   C9_restore_loop_always_broadcasts C9_state 0 99 { id := 10, cwd := "/tmp" } 5
     { id := 5, role := Role.user, agent_id := some 0, working_agent_id := none,
       attached_instances := [] }
     (by decide) (Or.inl rfl)⟩
